import Mathlib

/-!
Shallow embedding of the threshold / time-period / delta engine of the
`nagiosplugins` repository (files `nagiosplugin.py` and `check_memcached.py`).

Python strings are modelled as `String` / `List Char`; Python `str.split(sep)`
is modelled by `splitChar`; Python `int(s)` by `pyIntL` (an `Except` that
carries the uncaught `ValueError`); Python floats by `ℚ` (all values reached
by the claims are small integers, for which float arithmetic is exact);
Python exception classes by the inductive `NPError`.
-/

/-- Error kinds observable from the embedded code.  The first three mirror the
exception classes defined in `nagiosplugin.py`; the last two stand for
built-in Python exceptions that the code can raise without catching. -/
inductive NPError where
  /-- `ThresholdValidatorError` -/
  | thresholdValidatorError
  /-- `ThresholdTimePeriodError` -/
  | timePeriodError
  /-- `InvalidParameterError` -/
  | invalidParameterError
  /-- an uncaught Python `ValueError` (e.g. `int()` on a non-numeric string) -/
  | pyValueError
  /-- an uncaught Python `AttributeError` (e.g. `None.split`) -/
  | attributeError
deriving DecidableEq, Repr

deriving instance DecidableEq for Except

/-- Python `str.split(sep)` for a single-character separator: splits on every
occurrence, keeping empty pieces (`"a::b".split(':') == ['a','','b']`). -/
def splitChar (sep : Char) : List Char → List (List Char)
  | [] => [[]]
  | c :: cs =>
    if c = sep then [] :: splitChar sep cs
    else
      match splitChar sep cs with
      | [] => [[c]]
      | p :: ps => (c :: p) :: ps

/-- Nonempty and all decimal digits (the `\d+` of the validation regex, and
the bare-digits body accepted by Python `int`). -/
def isDigitsL (l : List Char) : Bool := !l.isEmpty && l.all Char.isDigit

/-- Numeric value of a digit string. -/
def digitsVal (l : List Char) : Nat := l.foldl (fun a c => a * 10 + (c.toNat - 48)) 0

/-- Python 2 `int(s)`: optional sign followed by at least one digit
(surrounding whitespace, which never occurs in this program's inputs, is not
modelled).  A non-numeric string raises `ValueError`, which the parser does
not catch. -/
def pyIntL (l : List Char) : Except NPError Int :=
  match l with
  | '-' :: rest => if isDigitsL rest then .ok (-(digitsVal rest : Int)) else .error .pyValueError
  | '+' :: rest => if isDigitsL rest then .ok (digitsVal rest : Int) else .error .pyValueError
  | _ => if isDigitsL l then .ok (digitsVal l : Int) else .error .pyValueError

/-- Low endpoint of a parsed range: either the sentinel
`Maths.NEGATIVE_INFINITY` or an integer. -/
inductive LowBound where
  | negInf
  | val (n : Int)
deriving DecidableEq, Repr

/-- High endpoint of a parsed range: either the sentinel `Maths.INFINITY` or
an integer. -/
inductive HighBound where
  | inf
  | val (n : Int)
deriving DecidableEq, Repr

/-- `ThresholdParser.validate` reduced to its regex
`^@?((\d+|~):?)?(\d+)?$`, decided directly: after consuming at most one
leading `@`, a string with a colon must be `(digits|~) ':' (digits|ε)` with
exactly one colon, and a colon-free string must be empty, all digits, or a
`~` optionally followed by digits. -/
def validateL (cs0 : List Char) : Bool :=
  let cs := if cs0.head? = some '@' then cs0.tail else cs0
  if cs.contains ':' then
    match splitChar ':' cs with
    | [p, q] => (isDigitsL p || p = ['~']) && (q = [] || isDigitsL q)
    | _ => false
  else
    cs = [] || isDigitsL cs ||
      (if cs.head? = some '~' then cs.tail = [] || isDigitsL cs.tail else false)

/-- `ThresholdParser.validate`: returns `True` on a regex match, raises
`ThresholdValidatorError` otherwise. -/
def validate (s : String) : Except NPError Bool :=
  if validateL s.toList then .ok true else .error .thresholdValidatorError

/-- `ThresholdParser.parse` on the character list of the threshold string:
strip all leading `@` (recording inversion), split on `:` when present
(`~` low means negative infinity, empty high means positive infinity,
otherwise `int()` each side, raising `ThresholdValidatorError` when both are
finite with `end < start`), otherwise the whole string is the high bound and
the low bound is the initial `start = 0`. -/
def parseL (cs0 : List Char) : Except NPError (LowBound × HighBound × Bool) :=
  let invert_range : Bool := cs0.head? = some '@'
  let r := if cs0.head? = some '@' then cs0.dropWhile (· = '@') else cs0
  if r.contains ':' then
    match splitChar ':' r with
    | v0 :: v1 :: _ =>
      match (if v0 = ['~'] then Except.ok LowBound.negInf
             else Except.map LowBound.val (pyIntL v0)) with
      | .error e => .error e
      | .ok start =>
        match (if v1 = [] then Except.ok HighBound.inf
               else Except.map HighBound.val (pyIntL v1)) with
        | .error e => .error e
        | .ok high =>
          if (match high, start with
              | .val b, .val a => decide (b < a)
              | _, _ => false) then
            .error .thresholdValidatorError
          else
            .ok (start, high, invert_range)
    | _ => .error .pyValueError
  else
    match pyIntL r with
    | .error e => .error e
    | .ok n => .ok (LowBound.val 0, HighBound.val n, invert_range)

/-- `ThresholdParser.parse` on a `String`. -/
def parse (s : String) : Except NPError (LowBound × HighBound × Bool) :=
  parseL s.toList

/-- `ThresholdParser.value_matches_range`.  The value is modelled after
Python's `float()` coercion: `some v` when the input is numeric, `none` when
`float()` would raise `ValueError`, in which case the code raises
`InvalidParameterError`.  The two branches mirror the source's nested
conditionals, with each sentinel comparison resolved by the bound's shape. -/
def value_matches_range (start : LowBound) (high : HighBound)
    (alert_inside_range : Bool) (value : Option ℚ) : Except NPError Bool :=
  match value with
  | none => .error .invalidParameterError
  | some numeric_value =>
    if alert_inside_range then
      if (match start with
          | .negInf => true
          | .val a => decide ((a : ℚ) ≤ numeric_value)) then
        if (match high with
            | .inf => true
            | .val b => decide (numeric_value ≤ (b : ℚ))) then
          .ok true
        else
          .ok false
      else
        .ok false
    else
      if (match start with
          | .negInf => false
          | .val a => decide (numeric_value < (a : ℚ))) ||
         (match high with
          | .inf => false
          | .val b => decide (numeric_value > (b : ℚ))) then
        .ok true
      else
        .ok false

/-- `"HH:MM"` to seconds since midnight, following
`time.strptime(_, "%Y:%H:%M")` combined with `time.mktime` on 1970-01-01:
each field is one or two digits, hours `0..23`, minutes `0..59`; any other
shape raises `ValueError` (modelled as `none`).  The constant timezone
offset that `mktime` adds cancels in every comparison and difference the
code performs, so it is omitted. -/
def hhmm_to_seconds (cs : List Char) : Option Nat :=
  match splitChar ':' cs with
  | [h, m] =>
    if isDigitsL h && h.length ≤ 2 && isDigitsL m && m.length ≤ 2 then
      let hv := digitsVal h
      let mv := digitsVal m
      if hv ≤ 23 && mv ≤ 59 then some (hv * 3600 + mv * 60) else none
    else none
  | _ => none

/-- `ThresholdParser.get_start_and_end_seconds_from_period`: split on `-`
(exactly two pieces), normalize a start of `24:00` to `00:00` and an end of
`24:00` or `00:00` to `23:59`, convert both sides to seconds, and require
`start <= end`; every failure raises `ThresholdTimePeriodError`. -/
def get_start_and_end_seconds_from_periodL (time_period : List Char) :
    Except NPError (Nat × Nat) :=
  match splitChar '-' time_period with
  | [st0, en0] =>
    let st := if st0 = "24:00".toList then "00:00".toList else st0
    let en := if en0 = "24:00".toList || en0 = "00:00".toList then "23:59".toList else en0
    match hhmm_to_seconds st, hhmm_to_seconds en with
    | some s, some e =>
      if e < s then .error .timePeriodError else .ok (s, e)
    | _, _ => .error .timePeriodError
  | _ => .error .timePeriodError

/-- `ThresholdParser.get_start_and_end_seconds_from_period` on a `String`. -/
def get_start_and_end_seconds_from_period (time_period : String) :
    Except NPError (Nat × Nat) :=
  get_start_and_end_seconds_from_periodL time_period.toList

/-- The loop body of `ThresholdParser.time_periods_cover_24_hours`: total of
`end - start` over the periods, stopping at the first malformed period. -/
def sum_period_seconds : List (List Char) → Except NPError Int
  | [] => .ok 0
  | tp :: rest =>
    match get_start_and_end_seconds_from_periodL tp with
    | .error e => .error e
    | .ok (s, e) =>
      match sum_period_seconds rest with
      | .error err => .error err
      | .ok total => .ok (((e : Int) - (s : Int)) + total)

/-- `ThresholdParser.SECONDS_IN_A_DAY_MINUS_ONE_MINUTE`. -/
def SECONDS_IN_A_DAY_MINUS_ONE_MINUTE : Int := 86340

/-- `ThresholdParser.time_periods_cover_24_hours`: the summed durations must
equal `86340` exactly. -/
def time_periods_cover_24_hoursL (time_period_values : List (List Char)) :
    Except NPError Bool :=
  match sum_period_seconds time_period_values with
  | .error e => .error e
  | .ok total => .ok (total = SECONDS_IN_A_DAY_MINUS_ONE_MINUTE)

/-- `ThresholdParser.time_periods_cover_24_hours` on `String`s. -/
def time_periods_cover_24_hours (time_period_values : List String) :
    Except NPError Bool :=
  time_periods_cover_24_hoursL (time_period_values.map String.toList)

/-- The `current_time` computed by `ThresholdParser.get_time_period_index`:
`time.strftime("1970:%H:%M", time.gmtime(timestamp))` keeps only the hour
and minute fields, so the time of day is truncated to a whole minute; the
seconds field of the timestamp is discarded along with the date. -/
def current_time_of_day (timestamp : Int) : Nat :=
  ((timestamp.emod 86400).toNat / 60) * 60

/-- Time of day keeping the seconds field.  Modelled from the spec: the spec
says the selector keeps "only hours/minutes/seconds" of the timestamp; this
is that reading, used to compare against the code's whole-minute
truncation. -/
def time_of_day_with_seconds (timestamp : Int) : Nat :=
  (timestamp.emod 86400).toNat

/-- The scan of `ThresholdParser.get_time_period_index`: first index whose
closed interval contains `current_time`, propagating parse failures and
raising `ThresholdTimePeriodError` when the list is exhausted. -/
def get_time_period_index_go (current_time : Nat) :
    List (List Char) → Nat → Except NPError Nat
  | [], _ => .error .timePeriodError
  | tp :: rest, i =>
    match get_start_and_end_seconds_from_periodL tp with
    | .error e => .error e
    | .ok (s, e) =>
      if s ≤ current_time ∧ current_time ≤ e then .ok i
      else get_time_period_index_go current_time rest (i + 1)

/-- `ThresholdParser.get_time_period_index`. -/
def get_time_period_indexL (time_period_values : List (List Char))
    (timestamp : Int) : Except NPError Nat :=
  get_time_period_index_go (current_time_of_day timestamp) time_period_values 0

/-- `ThresholdParser.get_time_period_index` on `String`s. -/
def get_time_period_index (time_period_values : List String) (timestamp : Int) :
    Except NPError Nat :=
  get_time_period_indexL (time_period_values.map String.toList) timestamp

/-- The comma-branch body of `ThresholdParser.get_thresholds_for_time`,
applied to the already-split value lists: the three length checks (the
second and third mirror the code's `if len(warning_values) > 0 ... elif
len(critical_values) > 0 ...`), then the full-day coverage check, then the
index lookup, with the code's `IndexError -> None` fallback rendered as
`List.get?`. -/
def gtft_check (warning_values critical_values time_period_values : List (List Char))
    (timestamp : Int) : Except NPError (Option String × Option String) :=
  if warning_values.length > 0 ∧ critical_values.length > 0 ∧
      warning_values.length ≠ critical_values.length then
    .error .timePeriodError
  else if warning_values.length > 0 ∧
      time_period_values.length ≠ warning_values.length then
    .error .timePeriodError
  else if ¬(warning_values.length > 0) ∧ critical_values.length > 0 ∧
      time_period_values.length ≠ critical_values.length then
    .error .timePeriodError
  else
    match time_periods_cover_24_hoursL time_period_values with
    | .error e => .error e
    | .ok covers =>
      if ¬covers then .error .timePeriodError
      else
        match get_time_period_indexL time_period_values timestamp with
        | .error e => .error e
        | .ok idx =>
          .ok ((warning_values.get? idx).map String.mk,
               (critical_values.get? idx).map String.mk)

/-- `ThresholdParser.get_thresholds_for_time`.  `none` stands both for the
Python `None` arguments and for the empty tuple the code substitutes for an
absent threshold (the two are not distinguishable through this function's
observable behaviour: `',' in ()` is `False`, `().split` raises the
`AttributeError` the code catches into an empty list, and the final
`IndexError` fallback returns `None`). -/
def get_thresholds_for_time (warning critical time_periods : Option String)
    (timestamp : Int) : Except NPError (Option String × Option String) :=
  if warning = none ∧ critical = none then
    .error .invalidParameterError
  else if (match warning with
           | some w => w.toList.contains ','
           | none => false) ||
          (match critical with
           | some c => c.toList.contains ','
           | none => false) ||
          time_periods ≠ none then
    match time_periods with
    | none => .error .attributeError
    | some tp =>
      gtft_check
        (match warning with
         | some w => splitChar ',' w.toList
         | none => [])
        (match critical with
         | some c => splitChar ',' c.toList
         | none => [])
        (splitChar ',' tp.toList) timestamp
  else
    .ok (warning, critical)

/-- Python 2 `round(x)`: nearest integer, ties away from zero. -/
def pyRound0 (x : ℚ) : Int :=
  if 0 ≤ x then ⌊x + 1 / 2⌋ else ⌈x - 1 / 2⌉

/-- Python 2 `round(x, p)`: rounds to `p` decimal places, ties away from
zero (float representability is not modelled). -/
def pyRoundP (x : ℚ) (p : ℕ) : ℚ :=
  (pyRound0 (x * 10 ^ p) : ℚ) / 10 ^ p

/-- One record of `TimestampedStatisticCollection`: the
`{"time": ..., "value": ...}` dictionary stored under a statistic key.  The
stored raw value is modelled through `NumberUtils.string_to_number`'s
numeric reading, which is the only way the code consumes it. -/
structure DeltaEntry where
  time : ℚ
  value : ℚ
deriving DecidableEq, Repr

/-- `TimestampedStatisticCollection` plus its backing file: `data` is the
in-memory dictionary, `disk` what has been persisted. -/
structure StatisticStore where
  data : List (String × DeltaEntry)
  disk : List (String × DeltaEntry)
deriving DecidableEq, Repr

/-- `TimestampedStatisticCollection.__setitem__`: stores
`{"time": time.time(), "value": value}` under `key`, overwriting any
previous entry. -/
def store_setitem (st : StatisticStore) (key : String) (now value : ℚ) :
    StatisticStore :=
  { st with data := (key, ⟨now, value⟩) :: st.data.filter (fun p => !(p.1 = key)) }

/-- `TimestampedStatisticCollection.persist`: writes the whole dictionary to
the backing file. -/
def store_persist (st : StatisticStore) : StatisticStore :=
  { st with disk := st.data }

/-- `MemcachedStats._get_delta`: the previous entry is looked up (an absent
key makes the dictionary access raise `KeyError`, caught, leaving the rate
at `0`); for the special statistic `cache_hits_percentage` the delta is the
current value itself, otherwise `current - previous`; the elapsed time is
`round(now - previous.time)`, and a zero elapsed time raises
`ZeroDivisionError`, caught, leaving the rate at `0`.  The store is then
updated with the current value and timestamp and persisted, whatever the
rate was. -/
def get_delta (st : StatisticStore) (statistic : String) (current_value : ℚ)
    (now : ℚ) (precision : ℕ) : ℚ × StatisticStore :=
  let previous_value := st.data.lookup statistic
  let delta_value : ℚ :=
    match previous_value with
    | none => 0
    | some prev =>
      let delta := if statistic = "cache_hits_percentage" then current_value
        else current_value - prev.value
      let delta_time := pyRound0 (now - prev.time)
      if delta_time = 0 then 0
      else pyRoundP (delta / (delta_time : ℚ)) precision
  let st1 := store_setitem st statistic now current_value
  let st2 := store_persist st1
  (delta_value, st2)

/-- Membership of the closed interval on the amended (code-faithful) reading:
with the inversion flag SET the matcher alerts inside `[low, high]` (an
infinite side is always satisfied), with the flag CLEAR it alerts strictly
outside.  Stated from the amended claim's words, to be compared with
`value_matches_range`. -/
def range_matches_spec (start : LowBound) (high : HighBound) (invert : Bool)
    (v : ℚ) : Bool :=
  if invert then
    (match start with
     | .negInf => true
     | .val a => decide ((a : ℚ) ≤ v)) &&
    (match high with
     | .inf => true
     | .val b => decide (v ≤ (b : ℚ)))
  else
    (match start with
     | .negInf => false
     | .val a => decide (v < (a : ℚ))) ||
    (match high with
     | .inf => false
     | .val b => decide ((b : ℚ) < v))

lemma ite_ok_and (c1 c2 : Bool) :
    (if c1 then (if c2 then (Except.ok true : Except NPError Bool) else .ok false)
     else .ok false) = .ok (c1 && c2) := by
  cases c1 <;> cases c2 <;> rfl

lemma ite_ok (c : Bool) :
    (if c then (Except.ok true : Except NPError Bool) else .ok false) = .ok c := by
  cases c <;> rfl

/-- Claim C1 (corrected).  The claim has the inversion flag backwards: in the
code, a SET flag (`alert_inside_range = true`, produced by a leading `@`)
matches values inside the closed interval `[low, high]`, and a CLEAR flag
matches values strictly outside it.  This theorem proves the amended
statement: for every parsed range and numeric value, `value_matches_range`
returns exactly the inside-interval test when the flag is true and the
strictly-outside test when it is false. -/
theorem C1_value_matches_range_amended (start : LowBound) (high : HighBound)
    (invert : Bool) (v : ℚ) :
    value_matches_range start high invert (some v) =
      .ok (range_matches_spec start high invert v) := by
  cases start <;> cases high <;> cases invert <;>
    simp [value_matches_range, range_matches_spec, ite_ok_and, ite_ok, gt_iff_lt] <;>
    split_ifs <;> simp_all

/-- Claim C1, counterexample to the claim as stated: for the range
`{low: 0, high: 10, invert: false}` and the value `5`, which lies inside
`[0, 10]`, the claim predicts a match, but `value_matches_range` returns
`false`. -/
theorem C1_value_matches_range_counterexample :
    value_matches_range (.val 0) (.val 10) false (some 5) = .ok false ∧
      (0 : ℚ) ≤ 5 ∧ (5 : ℚ) ≤ 10 := by
  refine ⟨by decide, by norm_num, by norm_num⟩

/-- Claim C2 (confirmed).  For the range `{0, 10, invert: false}` the values
`-9999, -10, -1, 11, 20, 9999` match and `0, 8, 10` do not; for the range
`{10, +inf, invert: true}` the values `10, 500, 9999` match and
`-9999, -8, 0, 9` do not. -/
theorem C2_value_matches_range_examples :
    value_matches_range (.val 0) (.val 10) false (some (-9999)) = .ok true ∧
    value_matches_range (.val 0) (.val 10) false (some (-10)) = .ok true ∧
    value_matches_range (.val 0) (.val 10) false (some (-1)) = .ok true ∧
    value_matches_range (.val 0) (.val 10) false (some 11) = .ok true ∧
    value_matches_range (.val 0) (.val 10) false (some 20) = .ok true ∧
    value_matches_range (.val 0) (.val 10) false (some 9999) = .ok true ∧
    value_matches_range (.val 0) (.val 10) false (some 0) = .ok false ∧
    value_matches_range (.val 0) (.val 10) false (some 8) = .ok false ∧
    value_matches_range (.val 0) (.val 10) false (some 10) = .ok false ∧
    value_matches_range (.val 10) .inf true (some 10) = .ok true ∧
    value_matches_range (.val 10) .inf true (some 500) = .ok true ∧
    value_matches_range (.val 10) .inf true (some 9999) = .ok true ∧
    value_matches_range (.val 10) .inf true (some (-9999)) = .ok false ∧
    value_matches_range (.val 10) .inf true (some (-8)) = .ok false ∧
    value_matches_range (.val 10) .inf true (some 0) = .ok false ∧
    value_matches_range (.val 10) .inf true (some 9) = .ok false := by
  decide

/-- Claim C8 (corrected).  The code has no `InvalidValueError` class: a
non-numeric value makes `value_matches_range` raise `InvalidParameterError`
itself — the same error kind the threshold resolver uses when both
thresholds are absent — so the raised kind is NOT distinct from
`InvalidParameterError`.  Amended: for every range, a non-numeric value
(one on which `float()` raises) makes the matcher fail with
`InvalidParameterError`; it never returns a boolean default. -/
theorem C8_nonnumeric_value_amended (start : LowBound) (high : HighBound)
    (alert_inside_range : Bool) :
    value_matches_range start high alert_inside_range none =
      .error .invalidParameterError := by
  rfl

/-- Claim C8, counterexample to the claim as stated: presenting a
non-numeric value to the matcher produces exactly
`InvalidParameterError`, contradicting the claim that the error kind is
distinct from `InvalidParameterError`. -/
theorem C8_nonnumeric_value_counterexample :
    value_matches_range (.val 0) (.val 10) false none =
      .error .invalidParameterError := by
  rfl

lemma splitChar_not_mem {sep : Char} : ∀ {l : List Char}, sep ∉ l →
    splitChar sep l = [l] := by
  intro l
  induction l with
  | nil => intro _; rfl
  | cons c cs ih =>
    intro h
    rw [splitChar, if_neg (fun hc => h (List.mem_cons.mpr (Or.inl hc.symm))),
      ih (fun hm => h (List.mem_cons_of_mem c hm))]

lemma digits_no_colon {l : List Char} (h : isDigitsL l = true) : ':' ∉ l := by
  intro hm
  have hall := (Bool.and_eq_true_iff.mp h).2
  have := (List.all_eq_true.mp hall) ':' hm
  simp at this

/-- Claim C9 (corrected).  The validation regex `^@?((\d+|~):?)?(\d+)?$`
does not accept a bare `":" high` form: a leading colon would need the
`(\d+|~)` group to be empty, which the regex forbids (the repository's own
test suite lists `":10"` among the invalid thresholds).  Amended: for every
nonempty digit string `h`, `validate (":" ++ h)` fails with
`ThresholdValidatorError`. -/
theorem C9_colon_high_amended (h : List Char) (hd : isDigitsL h = true) :
    validate (String.mk (':' :: h)) = .error .thresholdValidatorError := by
  have hsplit : splitChar ':' (':' :: h) = [[], h] := by
    rw [show splitChar ':' (':' :: h) = [] :: splitChar ':' h from rfl,
      splitChar_not_mem (digits_no_colon hd)]
  have h1 : validateL (':' :: h) = false := by
    show (match splitChar ':' (':' :: h) with
          | [p, q] => (isDigitsL p || p = ['~']) && (q = [] || isDigitsL q)
          | _ => false) = false
    rw [hsplit]
    simp [isDigitsL]
  simp [validate, String.toList, h1]

/-- Claim C9, witness for the amended theorem at the digit string `"99"`. -/
theorem C9_colon_high_witness :
    validate (String.mk (':' :: "99".toList)) = .error .thresholdValidatorError :=
  C9_colon_high_amended "99".toList (by decide)

/-- Claim C9, counterexample to the claim as stated: `validate ":10"` does
not accept the string, it raises `ThresholdValidatorError`. -/
theorem C9_colon_high_counterexample :
    validate ":10" = .error .thresholdValidatorError := by
  decide

/-- Claim C10 (confirmed).  The empty string, `"@"` and `"~"` all pass
`validate`, yet `parse` on each of them reaches Python's `int()` with a
non-numeric string and raises an uncaught `ValueError` — an error kind
distinct from the declared `ThresholdValidatorError` — so a successful
`validate` guarantees neither that `parse` succeeds nor that it fails only
with a declared error kind. -/
theorem C10_validate_parse_mismatch :
    validate "" = .ok true ∧ validate "@" = .ok true ∧ validate "~" = .ok true ∧
    parse "" = .error .pyValueError ∧
    parse "@" = .error .pyValueError ∧
    parse "~" = .error .pyValueError ∧
    NPError.pyValueError ≠ NPError.thresholdValidatorError := by
  decide

lemma parseL_ok_bounds {cs : List Char} {a b : Int} {inv : Bool}
    (hp : parseL cs = .ok (.val a, .val b, inv)) : a ≤ b ∨ a = 0 := by
  rw [parseL] at hp
  repeat' split at hp
  all_goals try exact Except.noConfusion hp
  all_goals simp only [Except.ok.injEq, Prod.mk.injEq] at hp
  all_goals obtain ⟨h1, h2, h3⟩ := hp
  all_goals first
    | (subst h1; subst h2; simp only [decide_eq_true_eq] at *; omega)
    | (rw [LowBound.val.injEq] at h1; omega)

/-- Claim C7 (corrected).  The five positive parses and the three
`ValidationError` failures hold exactly as stated, but the universal part of
the claim is false: the `high < low` check only runs in the `:`-split
branch, so a colon-free negative input such as `"-5"` parses to
`{low: 0, high: -5}` — both bounds finite with `high < low` — without any
error.  Amended: the listed examples behave as stated, and every successful
parse has either `low <= high` or `low = 0` (the colon-free branch always
returns `low = 0` and performs no ordering check). -/
theorem C7_parse_amended :
    parse "10" = .ok (.val 0, .val 10, false) ∧
    parse "10:" = .ok (.val 10, .inf, false) ∧
    parse "@10:" = .ok (.val 10, .inf, true) ∧
    parse "~:10" = .ok (.negInf, .val 10, false) ∧
    parse "@~:10" = .ok (.negInf, .val 10, true) ∧
    parse "10:0" = .error .thresholdValidatorError ∧
    parse "20:10" = .error .thresholdValidatorError ∧
    parse "0:-20" = .error .thresholdValidatorError ∧
    (∀ (s : String) (a b : Int) (inv : Bool),
      parse s = .ok (.val a, .val b, inv) → a ≤ b ∨ a = 0) := by
  refine ⟨by decide, by decide, by decide, by decide, by decide, by decide,
    by decide, by decide, fun s a b inv hp => parseL_ok_bounds hp⟩

/-- Claim C7, witness for the universal part of the amended theorem at the
input `"10:20"`. -/
theorem C7_parse_witness : (10 : Int) ≤ 20 ∨ (10 : Int) = 0 :=
  C7_parse_amended.2.2.2.2.2.2.2.2 "10:20" 10 20 false (by decide)

/-- Claim C7, counterexample to the claim as stated: `parse "-5"` returns
the range `{low: 0, high: -5, invert: false}` — both bounds finite with
`high < low` — instead of failing with `ValidationError`. -/
theorem C7_parse_counterexample :
    parse "-5" = .ok (.val 0, .val (-5), false) ∧ (-5 : Int) < 0 := by
  decide

/-- Claim C4 (confirmed).  `time_periods_cover_24_hours` returns `ok true`
exactly when the summed `(end - start)` durations (after the `24:00` /
`00:00` normalizations performed inside
`get_start_and_end_seconds_from_period`) equal 86340 seconds; the three
listed examples behave as stated; and the check is a sum check only: the
two mutually overlapping periods `00:00-12:00` and `00:00-11:59` (both
contain second 0) sum to 86340 and pass. -/
theorem C4_cover_24_hours :
    (∀ tps : List String, time_periods_cover_24_hours tps = .ok true ↔
      sum_period_seconds (tps.map String.toList) = .ok 86340) ∧
    time_periods_cover_24_hours ["00:00-08:00", "08:00-16:00", "16:00-24:00"] = .ok true ∧
    time_periods_cover_24_hours ["00:00-23:00"] = .ok false ∧
    time_periods_cover_24_hours ["10:00-08:00"] = .error .timePeriodError ∧
    time_periods_cover_24_hours ["00:00-12:00", "00:00-11:59"] = .ok true ∧
    get_start_and_end_seconds_from_period "00:00-12:00" = .ok (0, 43200) ∧
    get_start_and_end_seconds_from_period "00:00-11:59" = .ok (0, 43140) := by
  refine ⟨?_, by decide, by decide, by decide, by decide, by decide, by decide⟩
  intro tps
  rw [time_periods_cover_24_hours, time_periods_cover_24_hoursL]
  cases hsum : sum_period_seconds (tps.map String.toList) with
  | error e => simp
  | ok total =>
    simp [SECONDS_IN_A_DAY_MINUS_ONE_MINUTE]

lemma get_time_period_index_go_sound {ct : Nat} :
    ∀ {tps : List (List Char)} {i k : Nat},
    get_time_period_index_go ct tps i = .ok k →
    ∃ j, k = i + j ∧
      (∃ tp s e, tps.get? j = some tp ∧
        get_start_and_end_seconds_from_periodL tp = .ok (s, e) ∧ s ≤ ct ∧ ct ≤ e) ∧
      ∀ j' < j, ∃ tp s e, tps.get? j' = some tp ∧
        get_start_and_end_seconds_from_periodL tp = .ok (s, e) ∧ ¬(s ≤ ct ∧ ct ≤ e) := by
  intro tps
  induction tps with
  | nil => intro i k h; exact Except.noConfusion h
  | cons tp rest ih =>
    intro i k h
    rw [get_time_period_index_go] at h
    split at h
    · exact Except.noConfusion h
    · rename_i s e hg
      split at h
      · rename_i hc
        injection h with h'
        subst h'
        refine ⟨0, by omega, ⟨tp, s, e, rfl, hg, hc.1, hc.2⟩, ?_⟩
        intro j' hj'
        exact absurd hj' (Nat.not_lt_zero _)
      · rename_i hc
        obtain ⟨j, hk, hfound, hmiss⟩ := ih h
        refine ⟨j + 1, by omega, ?_, ?_⟩
        · obtain ⟨tp', s', e', hget, hok, h1, h2⟩ := hfound
          exact ⟨tp', s', e', by simpa using hget, hok, h1, h2⟩
        · intro j' hj'
          cases j' with
          | zero => exact ⟨tp, s, e, rfl, hg, hc⟩
          | succ j'' =>
            obtain ⟨tp', s', e', hget, hok, hm⟩ := hmiss j'' (by omega)
            exact ⟨tp', s', e', by simpa using hget, hok, hm⟩

lemma get_time_period_index_go_miss {ct : Nat} :
    ∀ {tps : List (List Char)} {i : Nat},
    (∀ tp ∈ tps, ∃ s e, get_start_and_end_seconds_from_periodL tp = .ok (s, e) ∧
      ¬(s ≤ ct ∧ ct ≤ e)) →
    get_time_period_index_go ct tps i = .error .timePeriodError := by
  intro tps
  induction tps with
  | nil => intro i _; rfl
  | cons tp rest ih =>
    intro i hall
    obtain ⟨s, e, hok, hmiss⟩ := hall tp (List.mem_cons_self _ _)
    rw [get_time_period_index_go, hok]
    show (if s ≤ ct ∧ ct ≤ e then Except.ok i
          else get_time_period_index_go ct rest (i + 1)) = .error .timePeriodError
    rw [if_neg hmiss]
    exact ih (fun tp' hm => hall tp' (List.mem_cons_of_mem _ hm))

/-- Claim C5 (corrected).  The code derives the time of day with
`strftime("1970:%H:%M", ...)`, which discards the SECONDS of the timestamp
along with its date — the claim's "keeping only hours/minutes/seconds" is
wrong about the seconds.  Amended: `get_time_period_index` truncates the
time of day to a whole minute (`current_time_of_day`), returns the index of
the first period whose closed `[start, end]` interval contains that
truncated time of day, fails with `ThresholdTimePeriodError` when every
period parses but none contains it, and the three listed examples hold. -/
theorem C5_get_time_period_index_amended :
    (∀ (tps : List String) (t : Int) (i : Nat),
      get_time_period_index tps t = .ok i →
      (∃ tp s e, tps.get? i = some tp ∧
        get_start_and_end_seconds_from_period tp = .ok (s, e) ∧
        s ≤ current_time_of_day t ∧ current_time_of_day t ≤ e) ∧
      (∀ j < i, ∃ tp s e, tps.get? j = some tp ∧
        get_start_and_end_seconds_from_period tp = .ok (s, e) ∧
        ¬(s ≤ current_time_of_day t ∧ current_time_of_day t ≤ e))) ∧
    (∀ (tps : List String) (t : Int),
      (∀ tp ∈ tps, ∃ s e, get_start_and_end_seconds_from_period tp = .ok (s, e) ∧
        ¬(s ≤ current_time_of_day t ∧ current_time_of_day t ≤ e)) →
      get_time_period_index tps t = .error .timePeriodError) ∧
    get_time_period_index ["00:00-08:00", "08:00-16:00", "16:00-24:00"] 10 = .ok 0 ∧
    get_time_period_index ["00:00-08:00", "08:00-16:00", "16:00-24:00"] 28860 = .ok 1 ∧
    get_time_period_index ["00:00-08:00", "08:00-16:00", "16:00-24:00"] 86340 = .ok 2 := by
  refine ⟨?_, ?_, by decide, by decide, by decide⟩
  · intro tps t i h
    rw [get_time_period_index, get_time_period_indexL] at h
    obtain ⟨j, hk, hfound, hmiss⟩ := get_time_period_index_go_sound h
    obtain rfl : i = j := by omega
    constructor
    · obtain ⟨tp', s, e, hget, hok, h1, h2⟩ := hfound
      rw [List.get?_map] at hget
      obtain ⟨tpS, hgetS, rfl⟩ := Option.map_eq_some'.mp hget
      exact ⟨tpS, s, e, hgetS, hok, h1, h2⟩
    · intro j' hj'
      obtain ⟨tp', s, e, hget, hok, hm⟩ := hmiss j' hj'
      rw [List.get?_map] at hget
      obtain ⟨tpS, hgetS, rfl⟩ := Option.map_eq_some'.mp hget
      exact ⟨tpS, s, e, hgetS, hok, hm⟩
  · intro tps t hall
    rw [get_time_period_index, get_time_period_indexL]
    refine get_time_period_index_go_miss ?_
    intro tp' hm
    obtain ⟨tpS, hmem, rfl⟩ := List.mem_map.mp hm
    exact hall tpS hmem

/-- Claim C5, witness for the amended theorem's first-match part at the
calendar `00:00-08:00, 08:00-16:00, 16:00-24:00` and timestamp `10`. -/
theorem C5_get_time_period_index_witness :
    (∃ tp s e, (["00:00-08:00", "08:00-16:00", "16:00-24:00"] : List String).get? 0 = some tp ∧
      get_start_and_end_seconds_from_period tp = .ok (s, e) ∧
      s ≤ current_time_of_day 10 ∧ current_time_of_day 10 ≤ e) ∧
    (∀ j < 0, ∃ tp s e,
      (["00:00-08:00", "08:00-16:00", "16:00-24:00"] : List String).get? j = some tp ∧
      get_start_and_end_seconds_from_period tp = .ok (s, e) ∧
      ¬(s ≤ current_time_of_day 10 ∧ current_time_of_day 10 ≤ e)) :=
  C5_get_time_period_index_amended.1 ["00:00-08:00", "08:00-16:00", "16:00-24:00"] 10 0
    (by decide)

/-- Claim C5, counterexample to the claim as stated: at timestamp `57630`
(time of day 16:00:30) the code returns index `1`, but the period at index
`1` spans `[28800, 57600]` and does not contain the seconds-precise time of
day `57630`; under the claim's "keeping only hours/minutes/seconds" reading
the first containing period would be index `2`. -/
theorem C5_get_time_period_index_counterexample :
    get_time_period_index ["00:00-08:00", "08:00-16:00", "16:00-24:00"] 57630 = .ok 1 ∧
    get_start_and_end_seconds_from_period "08:00-16:00" = .ok (28800, 57600) ∧
    time_of_day_with_seconds 57630 = 57630 ∧
    ¬((28800 : Nat) ≤ time_of_day_with_seconds 57630 ∧
      time_of_day_with_seconds 57630 ≤ 57600) ∧
    get_start_and_end_seconds_from_period "16:00-24:00" = .ok (57600, 86340) ∧
    ((57600 : Nat) ≤ time_of_day_with_seconds 57630 ∧
      time_of_day_with_seconds 57630 ≤ 86340) := by
  decide

lemma splitChar_ne_nil (sep : Char) (l : List Char) : splitChar sep l ≠ [] := by
  cases l with
  | nil => simp [splitChar]
  | cons c cs =>
    rw [splitChar]
    split
    · simp
    · split <;> simp

lemma gtft_some_some (w c p : String) (t : Int) :
    get_thresholds_for_time (some w) (some c) (some p) t =
      gtft_check (splitChar ',' w.toList) (splitChar ',' c.toList)
        (splitChar ',' p.toList) t := by
  rw [get_thresholds_for_time, if_neg (by simp), if_pos (by simp)]

lemma gtft_some_none (w p : String) (t : Int) :
    get_thresholds_for_time (some w) none (some p) t =
      gtft_check (splitChar ',' w.toList) [] (splitChar ',' p.toList) t := by
  rw [get_thresholds_for_time, if_neg (by simp), if_pos (by simp)]

lemma gtft_none_some (c p : String) (t : Int) :
    get_thresholds_for_time none (some c) (some p) t =
      gtft_check [] (splitChar ',' c.toList) (splitChar ',' p.toList) t := by
  rw [get_thresholds_for_time, if_neg (by simp), if_pos (by simp)]

lemma gtft_check_mismatch {wv cv pv : List (List Char)} {t : Int}
    (hw : wv ≠ []) (hc : cv ≠ [])
    (hlen : wv.length ≠ cv.length ∨ pv.length ≠ wv.length) :
    gtft_check wv cv pv t = .error .timePeriodError := by
  have hw' : 0 < wv.length := List.length_pos.mpr hw
  have hc' : 0 < cv.length := List.length_pos.mpr hc
  rw [gtft_check]
  rcases hlen with h | h
  · rw [if_pos ⟨hw', hc', h⟩]
  · by_cases h2 : wv.length = cv.length
    · rw [if_neg (by tauto), if_pos ⟨hw', h⟩]
    · rw [if_pos ⟨hw', hc', h2⟩]

lemma gtft_check_mismatch_w {wv pv : List (List Char)} {t : Int}
    (hw : wv ≠ []) (hlen : pv.length ≠ wv.length) :
    gtft_check wv [] pv t = .error .timePeriodError := by
  rw [gtft_check, if_neg (by simp), if_pos ⟨List.length_pos.mpr hw, hlen⟩]

lemma gtft_check_mismatch_c {cv pv : List (List Char)} {t : Int}
    (hc : cv ≠ []) (hlen : pv.length ≠ cv.length) :
    gtft_check [] cv pv t = .error .timePeriodError := by
  rw [gtft_check, if_neg (by simp), if_neg (by simp),
    if_pos ⟨by simp, List.length_pos.mpr hc, hlen⟩]

/-- Claim C6 (confirmed).  `get_thresholds_for_time` fails with
`InvalidParameterError` whenever both thresholds are absent; with the
comma-split lists it fails with `ThresholdTimePeriodError` whenever the
non-empty threshold lists' lengths disagree with each other or with the
periods list's length (stated for both thresholds present, warning only,
and critical only); and the three listed resolutions hold (07:56, 11:32 and
18:32 are timestamps 28560, 41520 and 66720 seconds into the day). -/
theorem C6_get_thresholds_for_time :
    (∀ (time_periods : Option String) (t : Int),
      get_thresholds_for_time none none time_periods t =
        .error .invalidParameterError) ∧
    (∀ (w c p : String) (t : Int),
      (splitChar ',' w.toList).length ≠ (splitChar ',' c.toList).length ∨
        (splitChar ',' p.toList).length ≠ (splitChar ',' w.toList).length →
      get_thresholds_for_time (some w) (some c) (some p) t =
        .error .timePeriodError) ∧
    (∀ (w p : String) (t : Int),
      (splitChar ',' p.toList).length ≠ (splitChar ',' w.toList).length →
      get_thresholds_for_time (some w) none (some p) t =
        .error .timePeriodError) ∧
    (∀ (c p : String) (t : Int),
      (splitChar ',' p.toList).length ≠ (splitChar ',' c.toList).length →
      get_thresholds_for_time none (some c) (some p) t =
        .error .timePeriodError) ∧
    get_thresholds_for_time (some "10,20,30") (some "50,60,70")
      (some "00:00-08:00,08:00-16:00,16:00-24:00") 28560 = .ok (some "10", some "50") ∧
    get_thresholds_for_time (some "10,20,30") (some "50,60,70")
      (some "00:00-08:00,08:00-16:00,16:00-24:00") 41520 = .ok (some "20", some "60") ∧
    get_thresholds_for_time (some "10,20,30") (some "50,60,70")
      (some "00:00-08:00,08:00-16:00,16:00-24:00") 66720 = .ok (some "30", some "70") := by
  refine ⟨?_, ?_, ?_, ?_, by decide, by decide, by decide⟩
  · intro tp t
    rfl
  · intro w c p t hlen
    rw [gtft_some_some]
    exact gtft_check_mismatch (splitChar_ne_nil _ _) (splitChar_ne_nil _ _) hlen
  · intro w p t hlen
    rw [gtft_some_none]
    exact gtft_check_mismatch_w (splitChar_ne_nil _ _) hlen
  · intro c p t hlen
    rw [gtft_none_some]
    exact gtft_check_mismatch_c (splitChar_ne_nil _ _) hlen

/-- Claim C6, witness: the length-mismatch part applied at
`warning = "10,20,30"`, `critical = "50,60"` (three versus two comma-separated
values). -/
theorem C6_get_thresholds_for_time_witness :
    get_thresholds_for_time (some "10,20,30") (some "50,60")
      (some "00:00-08:00,08:00-16:00,16:00-24:00") 28560 = .error .timePeriodError :=
  C6_get_thresholds_for_time.2.1 "10,20,30" "50,60"
    "00:00-08:00,08:00-16:00,16:00-24:00" 28560 (Or.inl (by decide))

/-- Claim C3 (corrected).  The claim's rate formula
`round((numeric(current) - numeric(previous.value)) / elapsed, precision)`
is wrong for one key: for the statistic `cache_hits_percentage` the code
uses the current value itself as the delta (it is already a rate-derived
quantity) instead of the difference.  Amended: with
`delta = current` for the key `"cache_hits_percentage"` and
`delta = current - previous.value` for every other key, `get_delta` returns
`0` when there is no previous entry, `0` when `round(now - previous.time)`
is zero, and `round(delta / elapsed, precision)` otherwise; and in every
case the store entry for the key is overwritten with the current value and
timestamp and the store is persisted (`disk = data`) before returning. -/
theorem C3_get_delta_amended :
    ∀ (st : StatisticStore) (key : String) (current now : ℚ) (precision : ℕ),
      (st.data.lookup key = none → (get_delta st key current now precision).1 = 0) ∧
      (∀ prev, st.data.lookup key = some prev →
        (get_delta st key current now precision).1 =
          (if pyRound0 (now - prev.time) = 0 then 0
           else pyRoundP ((if key = "cache_hits_percentage" then current
                           else current - prev.value) /
             (pyRound0 (now - prev.time) : ℚ)) precision)) ∧
      ((get_delta st key current now precision).2.data.lookup key =
        some ⟨now, current⟩) ∧
      (get_delta st key current now precision).2.disk =
        (get_delta st key current now precision).2.data := by
  intro st key current now precision
  refine ⟨?_, ?_, ?_, rfl⟩
  · intro hl
    simp [get_delta, hl]
  · intro prev hl
    simp [get_delta, hl]
  · simp [get_delta, store_setitem, store_persist, List.lookup]

/-- Claim C3, witness: the previous-entry case applied to the store holding
`{"x": {time: 0, value: 100}}` with current value `150` at time `10` and
precision `2` (the rate works out to `round(50 / 10, 2) = 5`). -/
theorem C3_get_delta_witness :
    (get_delta ⟨[("x", ⟨0, 100⟩)], []⟩ "x" 150 10 2).1 =
      (if pyRound0 ((10 : ℚ) - (0 : ℚ)) = 0 then 0
       else pyRoundP ((if ("x" : String) = "cache_hits_percentage" then (150 : ℚ)
                       else (150 : ℚ) - (100 : ℚ)) /
         (pyRound0 ((10 : ℚ) - (0 : ℚ)) : ℚ)) 2) :=
  (C3_get_delta_amended ⟨[("x", ⟨0, 100⟩)], []⟩ "x" 150 10 2).2.1 ⟨0, 100⟩
    (by simp [List.lookup])

/-- Claim C3, counterexample to the claim as stated: for the key
`cache_hits_percentage` with previous entry `{time: 0, value: 10}`, current
value `30` at time `10`, the code returns `round(30 / 10, 2) = 3`, while the
claim's formula `round((30 - 10) / 10, 2)` gives `2`. -/
theorem C3_get_delta_counterexample :
    (get_delta ⟨[("cache_hits_percentage", ⟨0, 10⟩)], []⟩ "cache_hits_percentage"
      30 10 2).1 = 3 ∧
    pyRoundP (((30 : ℚ) - 10) / (pyRound0 ((10 : ℚ) - 0) : ℚ)) 2 = 2 ∧
    (3 : ℚ) ≠ 2 := by
  refine ⟨?_, ?_, by norm_num⟩
  · simp only [get_delta, List.lookup]
    norm_num +decide [pyRoundP, pyRound0]
  · norm_num [pyRoundP, pyRound0]

